import Mathlib

/-!
Verification development for the sensor-CSV → partitioned-Parquet ingest
program (`src/main.py`).  The Python source is shallowly embedded:

* the DuckDB `processed_files` table becomes an association list
  `Ledger := List (String × Int)` (file path ↦ modified time);
* a Polars `DataFrame` becomes a schema (list of column names) together
  with rows, where each cell is `Option Val` (`none` is a null cell);
* the on-disk Parquet tree becomes `FS := List (String × List DataFrame)`,
  an association list from a partition directory path to the list of
  parquet files it holds;
* `write_partitioned_parquet` becomes a function on `FS` returning
  `Except (WErr × FS) FS`; an error carries the filesystem as it stands
  when the exception is raised.  An optional fuel counter `failAt`
  injects an I/O failure before the (k+1)-th filesystem mutation, so
  that every intermediate state of the delete-then-rewrite sequence is
  observable.
-/

set_option autoImplicit false

namespace CsvIngest

/-- A cell value: string, integer, or a date-time carrying its calendar
year and month (the components `dt.year` / `dt.month` extract) plus a
tick distinguishing instants within a month. -/
inductive Val where
  | s (v : String)
  | i (n : Int)
  | dt (year month tick : Int)
  deriving DecidableEq, Repr

/-- A data frame: column names plus rows; each cell is `Option Val`,
`none` being a null. -/
structure DataFrame where
  cols : List String
  rows : List (List (Option Val))
  deriving DecidableEq, Repr

/-- The `processed_files` table: `(file_path, modified_time)` rows,
`file_path` being the primary key. -/
abbrev Ledger := List (String × Int)

/-- Embeds `is_already_processed` (src/main.py:66-74): the SQL query
`SELECT 1 FROM processed_files WHERE file_path=? AND modified_time=?`
followed by `fetchone() is not None`. -/
def is_already_processed (fp : String) (mtime : Int) (led : Ledger) : Bool :=
  led.any (fun e => e.1 == fp && e.2 == mtime)

/-- Embeds `mark_as_processed` (src/main.py:77-84): DuckDB
`INSERT OR REPLACE INTO processed_files VALUES (?, ?)` with primary key
`file_path` — replace the row with this key if present, else insert. -/
def mark_as_processed (fp : String) (mtime : Int) (led : Ledger) : Ledger :=
  if led.any (fun e => e.1 == fp) then
    led.map (fun e => if e.1 == fp then (fp, mtime) else e)
  else
    led ++ [(fp, mtime)]

/-- Python `str(...)` of a cell, as interpolated by the f-strings of
`_partition_dir` (a null prints as `None`). -/
def fmtCell : Option Val → String
  | none => "None"
  | some (.s v) => v
  | some (.i n) => toString n
  | some (.dt y m t) =>
      "dt(" ++ toString y ++ "," ++ toString m ++ "," ++ toString t ++ ")"

/-- Python `f"{n:02d}"`: decimal rendering left-padded with `0` to width 2. -/
def pad2 (n : Int) : String :=
  if 0 ≤ n ∧ n < 10 then "0" ++ toString n else toString n

/-- The `:02d` format applied to a cell; the format spec only accepts an
integer (anything else raises), hence `Option`. -/
def fmt02Cell : Option Val → Option String
  | some (.i n) => some (pad2 n)
  | _ => none

/-- `df['c'][r]`: `none` when the column is absent or the row index is out
of bounds (both raise in Python); `some none` is a null cell. -/
def cell (df : DataFrame) (c : String) (r : Nat) : Option (Option Val) := do
  let i ← df.cols.indexOf? c
  let row ← df.rows[r]?
  row[i]?

/-- `PARQUET_ROOT` (src/main.py:31). -/
def PARQUET_ROOT : String := "parquet_root"

/-- Embeds `_partition_dir` (src/main.py:143-151): the partition path built
from row 0 of the frame,
`parquet_root/plant_name=…/machine_no=…/year=…/month=MM`.
`none` when any access raises (empty frame / missing column / non-integer
month under `:02d`). -/
def _partition_dir (df : DataFrame) : Option String := do
  let p ← cell df "plant_name" 0
  let m ← cell df "machine_no" 0
  let y ← cell df "year" 0
  let mo ← cell df "month" 0
  let mo2 ← fmt02Cell mo
  pure (PARQUET_ROOT ++ "/plant_name=" ++ fmtCell p ++ "/machine_no=" ++ fmtCell m
        ++ "/year=" ++ fmtCell y ++ "/month=" ++ mo2)

/-- The Parquet tree: partition directory path ↦ parquet files it holds. -/
abbrev FS := List (String × List DataFrame)

/-- Contents of a directory (`none`: the directory does not exist). -/
def FS.lookup (fs : FS) (d : String) : Option (List DataFrame) :=
  (fs.find? (fun e => e.1 == d)).map (fun e => e.2)

/-- Replace (or create) directory `d` with the given file list. -/
def FS.set (fs : FS) (d : String) (files : List DataFrame) : FS :=
  if fs.any (fun e => e.1 == d) then
    fs.map (fun e => if e.1 == d then (d, files) else e)
  else
    fs ++ [(d, files)]

/-- Ways `write_partitioned_parquet` raises. -/
inductive WErr where
  /-- `df['col'][0]` on an empty frame, or a missing column, in `_partition_dir`. -/
  | rowIndexOutOfBounds
  /-- `pl.concat` (or the dataset scan) over frames with differing columns. -/
  | schemaMismatch
  /-- `unique(subset=…)` names a column absent from the frame. -/
  | columnNotFound
  /-- injected I/O failure during a filesystem mutation. -/
  | ioFailure
  deriving DecidableEq, Repr

/-- `pl.scan_pyarrow_dataset(ds.dataset(part_dir))…collect()`: the union of
the directory's parquet files; `none` when their schemas do not line up
(or the directory holds no readable file). -/
def concatFiles : List DataFrame → Option DataFrame
  | [] => none
  | f :: rest =>
    if rest.all (fun g => g.cols == f.cols) then
      some ⟨f.cols, ((f :: rest).map (fun g => g.rows)).flatten⟩
    else none

/-- `pl.concat [a, b]` (vertical): requires identical columns. -/
def concatDF (a b : DataFrame) : Option DataFrame :=
  if a.cols == b.cols then some ⟨a.cols, a.rows ++ b.rows⟩ else none

/-- The `subset` passed to `unique` (src/main.py:169-170). -/
def DEDUP_SUBSET : List String :=
  ["plant_name", "machine_no", "year", "month", "Datetime", "parameter_id"]

/-- The dedup key of a row: its cells at the subset columns. -/
def dedupKey (cols : List String) (row : List (Option Val)) :
    List (Option (Option Val)) :=
  DEDUP_SUBSET.map (fun c => (cols.indexOf? c).bind (fun i => row[i]?))

/-- Keep one row per dedup key.  Polars `unique` defaults to `keep="any"`
(an unspecified survivor); the model fixes the first occurrence. -/
def dedupRows (cols : List String) (seen : List (List (Option (Option Val)))) :
    List (List (Option Val)) → List (List (Option Val))
  | [] => []
  | r :: rs =>
    if dedupKey cols r ∈ seen then dedupRows cols seen rs
    else r :: dedupRows cols (dedupKey cols r :: seen) rs

/-- `df.unique(subset=DEDUP_SUBSET)`: `none` (ColumnNotFoundError) when a
subset column is absent from the frame. -/
def uniqueBySubset (df : DataFrame) : Option DataFrame :=
  if DEDUP_SUBSET.all (fun c => df.cols.contains c) then
    some ⟨df.cols, dedupRows df.cols [] df.rows⟩
  else none

/-- One filesystem mutation moving the tree to `next`: consumes a unit of
fuel; raises (leaving the tree at `fs`) when the fuel is exhausted.
`none` fuel means no failure is injected. -/
def mutate (fs next : FS) (fuel : Option Nat) :
    Except (WErr × FS) (FS × Option Nat) :=
  match fuel with
  | none => .ok (next, none)
  | some 0 => .error (.ioFailure, fs)
  | some (n + 1) => .ok (next, some n)

/-- The unlink loop (src/main.py:177-179): each `p.unlink()` is one
mutation removing one parquet file from directory `d`. -/
def unlinkLoop (d : String) :
    List DataFrame → FS → Option Nat → Except (WErr × FS) (FS × Option Nat)
  | [], fs, fuel => .ok (fs, fuel)
  | _f :: rest, fs, fuel =>
    match mutate fs (FS.set fs d rest) fuel with
    | .error e => .error e
    | .ok (fs2, fuel2) => unlinkLoop d rest fs2 fuel2

/-- The merge phase of `write_partitioned_parquet` (src/main.py:163-174):
if the partition directory exists, read its files, concatenate with the
new frame and deduplicate by `DEDUP_SUBSET`; otherwise the new frame is
taken as is.  Pure — no filesystem mutation. -/
def computeMerged (fs : FS) (d : String) (new_df : DataFrame) :
    Except WErr DataFrame :=
  match FS.lookup fs d with
  | some files =>
    match concatFiles files with
    | none => .error .schemaMismatch
    | some existing =>
      match concatDF existing new_df with
      | none => .error .schemaMismatch
      | some both =>
        match uniqueBySubset both with
        | none => .error .columnNotFound
        | some m => .ok m
  | none => .ok new_df

/-- The tail of the rewrite phase: after the unlink loop,
`mkdir(parents=True, exist_ok=True)` (a mutation only when the directory
is absent), then write the merged frame as the directory's new (single)
file. -/
def rewritePhase (d : String) (merged : DataFrame) :
    Except (WErr × FS) (FS × Option Nat) → Except (WErr × FS) FS
  | .error e => .error e
  | .ok (fs1, fuel1) =>
    match mutate fs1 (if (FS.lookup fs1 d).isSome then fs1 else FS.set fs1 d []) fuel1 with
    | .error e => .error e
    | .ok (fs2, fuel2) =>
      match mutate fs2 (FS.set fs2 d [merged]) fuel2 with
      | .error e => .error e
      | .ok (fs3, _) => .ok fs3

/-- The rewrite phase of `write_partitioned_parquet` (src/main.py:176-188):
unlink the directory's parquet files one by one, `mkdir`, then write the
merged frame. -/
def deleteAndRewrite (d : String) (merged : DataFrame) (fs : FS)
    (failAt : Option Nat) : Except (WErr × FS) FS :=
  rewritePhase d merged
    (match FS.lookup fs d with
     | some files => unlinkLoop d files fs failAt
     | none => .ok (fs, failAt))

/-- Embeds `write_partitioned_parquet` (src/main.py:154-188): resolve the
partition directory from row 0 of the frame, merge with the existing
partition content, then delete-and-rewrite the directory.
`failAt = some k` injects an I/O failure at the (k+1)-th filesystem
mutation; an error carries the filesystem as it stands at the raise. -/
def write_partitioned_parquet (fs : FS) (new_df : DataFrame)
    (failAt : Option Nat) : Except (WErr × FS) FS :=
  match _partition_dir new_df with
  | none => .error (.rowIndexOutOfBounds, fs)
  | some d =>
    match computeMerged fs d new_df with
    | .error e => .error (e, fs)
    | .ok merged => deleteAndRewrite d merged fs failAt

/-- The filesystem an observer sees once the call returns or raises. -/
def resultFS : Except (WErr × FS) FS → FS
  | .ok fs => fs
  | .error (_, fs) => fs

/-- Joint state of the Parquet tree and the `processed_files` table. -/
structure SysState where
  fs : FS
  led : Ledger
  deriving DecidableEq, Repr

/-- Per-file outcome of `ingest_file`. -/
inductive Outcome where
  | skipped
  | ingested
  | failed (e : WErr)
  deriving DecidableEq, Repr

/-- Embeds `ingest_file` (src/main.py:193-205): skip when the ledger holds
the file at this mtime; otherwise merge-write the loaded records, and
only on normal return mark the file processed. -/
def ingest_file (st : SysState) (fp : String) (mtime : Int)
    (records : DataFrame) (failAt : Option Nat) : SysState × Outcome :=
  if is_already_processed fp mtime st.led then (st, .skipped)
  else
    match write_partitioned_parquet st.fs records failAt with
    | .error (e, fs2) => (⟨fs2, st.led⟩, .failed e)
    | .ok fs2 => (⟨fs2, mark_as_processed fp mtime st.led⟩, .ingested)

/-- The null-row filter of `read_pi_file` (src/main.py:114):
`filter(pl.all_horizontal(pl.all().is_not_null()))`. -/
def filterNotNull (df : DataFrame) : DataFrame :=
  ⟨df.cols, df.rows.filter (fun row => row.all (fun c => c.isSome))⟩

/-- Row-wise extraction of `dt.year` / `dt.month` from column `i`
(`dt.year` of a null is null; of a non-datetime value, a schema error —
`none` for the whole frame). -/
def addYM (i : Nat) : List (List (Option Val)) → Option (List (List (Option Val)))
  | [] => some []
  | row :: rest =>
    match row[i]? with
    | some none => (addYM i rest).map (fun rs => (row ++ [none, none]) :: rs)
    | some (some (Val.dt y m _t)) =>
        (addYM i rest).map (fun rs =>
          (row ++ [some (Val.i y), some (Val.i m)]) :: rs)
    | _ => none

/-- The `with_columns` of src/main.py:117-120: append `year` and `month`
extracted from the `Datetime` column. -/
def addYearMonth (df : DataFrame) : Option DataFrame :=
  match df.cols.indexOf? "Datetime" with
  | none => none
  | some i =>
    match addYM i df.rows with
    | none => none
    | some rows => some ⟨df.cols ++ ["year", "month"], rows⟩

/-- Embeds the frame-producing part of `read_pi_file` (src/main.py:89-127):
null-row removal, then the year/month columns.  `raw` models the scanned
CSV body. -/
def read_pi_file (raw : DataFrame) : Option DataFrame :=
  addYearMonth (filterNotNull raw)

/-- Embeds `load_csv_lazy` (src/main.py:132-138): `read_pi_file` plus the
literal `plant_name` / `machine_no` columns. -/
def load_csv_lazy (raw : DataFrame) (plant machine : String) :
    Option DataFrame :=
  match read_pi_file raw with
  | none => none
  | some df =>
    some ⟨df.cols ++ ["plant_name", "machine_no"],
          df.rows.map (fun row =>
            row ++ [some (.s plant), some (.s machine)])⟩

/-- The path `_partition_dir` produces, as a function of the partition
key `(plant, machine, year, month)`. -/
def codePartitionPath (plant machine : String) (year month : Int) : String :=
  PARQUET_ROOT ++ "/plant_name=" ++ plant ++ "/machine_no=" ++ machine
    ++ "/year=" ++ toString year ++ "/month=" ++ pad2 month

/-- The path template as the spec words it (`plant_id=<plant_id>/
machine_id=<machine_id>/year=<year>/month=<zero-padded 2-digit month>`
under the storage root), written here only for comparison with
`_partition_dir`. -/
def specPartitionPath (plant machine : String) (year month : Int) : String :=
  PARQUET_ROOT ++ "/plant_id=" ++ plant ++ "/machine_id=" ++ machine
    ++ "/year=" ++ toString year ++ "/month=" ++ pad2 month

/-- The wide schema `load_csv_lazy` produces for a CSV with one sensor
column `TAG1`. -/
def wideCols : List String :=
  ["Datetime", "TAG1", "year", "month", "plant_name", "machine_no"]

/-- A one-row batch for partition key `(P1, M1, 2024, 1)` in the wide
schema. -/
def dfNewP1 : DataFrame :=
  ⟨wideCols,
   [[some (Val.dt 2024 1 2), some (Val.i 5), some (Val.i 2024), some (Val.i 1),
     some (Val.s "P1"), some (Val.s "M1")]]⟩

/-- A stored one-row parquet file for the same partition, wide schema. -/
def oldP1 : DataFrame :=
  ⟨wideCols,
   [[some (Val.dt 2024 1 1), some (Val.i 7), some (Val.i 2024), some (Val.i 1),
     some (Val.s "P1"), some (Val.s "M1")]]⟩

/-- The directory of partition key `(P1, M1, 2024, 1)`. -/
def dP1 : String := codePartitionPath "P1" "M1" 2024 1

/-- A filesystem in which that partition already holds `oldP1`. -/
def fsP1 : FS := [(dP1, [oldP1])]

/-- A narrow schema that does carry a `parameter_id` column (the shape
the dedup subset of src/main.py:169-170 presupposes). -/
def narrowCols : List String :=
  ["Datetime", "parameter_id", "value", "year", "month", "plant_name", "machine_no"]

/-- A stored one-row parquet file for `(P1, M1, 2024, 1)`, narrow schema. -/
def oldNarrowP1 : DataFrame :=
  ⟨narrowCols,
   [[some (Val.dt 2024 1 1), some (Val.s "T1"), some (Val.i 7), some (Val.i 2024),
     some (Val.i 1), some (Val.s "P1"), some (Val.s "M1")]]⟩

/-- A one-row batch for the same partition, narrow schema. -/
def newNarrowP1 : DataFrame :=
  ⟨narrowCols,
   [[some (Val.dt 2024 1 2), some (Val.s "T1"), some (Val.i 8), some (Val.i 2024),
     some (Val.i 1), some (Val.s "P1"), some (Val.s "M1")]]⟩

/-- A filesystem in which `(P1, M1, 2024, 1)` already holds `oldNarrowP1`. -/
def fsNarrowP1 : FS := [(dP1, [oldNarrowP1])]

/-- A two-row batch whose rows carry two different partition keys
(`(P1, M1, 2024, 1)` and `(P2, M2, 2024, 2)`). -/
def mixedDF : DataFrame :=
  ⟨wideCols,
   [[some (Val.dt 2024 1 0), some (Val.i 5), some (Val.i 2024), some (Val.i 1),
     some (Val.s "P1"), some (Val.s "M1")],
    [some (Val.dt 2024 2 0), some (Val.i 6), some (Val.i 2024), some (Val.i 2),
     some (Val.s "P2"), some (Val.s "M2")]]⟩

/-- Partition key A of the colliding pair: plant `X`, machine
`Y/machine_no=Z`. -/
def keyA : String × String := ("X", "Y/machine_no=Z")

/-- Partition key B of the colliding pair: plant `X/machine_no=Y`,
machine `Z`.  Distinct from `keyA`, yet `_partition_dir` sends both to
the same directory string. -/
def keyB : String × String := ("X/machine_no=Y", "Z")

/-- A stored one-row parquet file whose row belongs to `keyB`. -/
def oldKeyB : DataFrame :=
  ⟨narrowCols,
   [[some (Val.dt 2024 1 1), some (Val.s "T1"), some (Val.i 7), some (Val.i 2024),
     some (Val.i 1), some (Val.s "X/machine_no=Y"), some (Val.s "Z")]]⟩

/-- A one-row batch whose row belongs to `keyA`. -/
def newKeyA : DataFrame :=
  ⟨narrowCols,
   [[some (Val.dt 2024 1 2), some (Val.s "T1"), some (Val.i 8), some (Val.i 2024),
     some (Val.i 1), some (Val.s "X"), some (Val.s "Y/machine_no=Z")]]⟩

/-- A filesystem holding `keyB`'s data at `keyB`'s resolved location. -/
def fsKeyB : FS := [(codePartitionPath keyB.1 keyB.2 2024 1, [oldKeyB])]

/-- Some partition directory unrelated to the concrete batches above. -/
def dOther : String := codePartitionPath "P9" "M9" 2024 1

/-- A scanned CSV body with one clean row and two rows carrying a null. -/
def rawC10 : DataFrame :=
  ⟨["Datetime", "TAG1"],
   [[some (Val.dt 2024 1 0), some (Val.i 5)],
    [some (Val.dt 2024 1 1), none],
    [none, some (Val.i 9)]]⟩

/-- The frame `load_csv_lazy` hands to the merge step for `rawC10`. -/
def dfC10out : DataFrame :=
  ⟨wideCols,
   [[some (Val.dt 2024 1 0), some (Val.i 5), some (Val.i 2024), some (Val.i 1),
     some (Val.s "P1"), some (Val.s "M1")]]⟩

/-- The filesystem as it stands when the unlink loop returns or raises. -/
def stepFS : Except (WErr × FS) (FS × Option Nat) → FS
  | .ok (fs, _) => fs
  | .error (_, fs) => fs

/-! ## Helper lemmas -/

theorem FS.lookup_set (fs : FS) (d b : String) (files : List DataFrame) :
    FS.lookup (FS.set fs d files) b =
      if b = d then some files else FS.lookup fs b := by
  unfold FS.set FS.lookup
  cases hany : fs.any (fun e => e.1 == d) with
  | true =>
    simp only [hany, if_true, List.find?_map]
    by_cases hbd : b = d
    · subst hbd
      have hpf : ((fun e : String × List DataFrame => e.1 == b) ∘
          (fun e => if e.1 == b then (b, files) else e)) =
          (fun e : String × List DataFrame => e.1 == b) := by
        funext e
        by_cases h : e.1 = b <;> simp [h]
      rw [hpf, if_pos rfl]
      obtain ⟨e0, he0, hp0⟩ := List.any_eq_true.mp hany
      cases hf : fs.find? (fun e => e.1 == b) with
      | none =>
          exact absurd (List.find?_eq_none.mp hf e0 he0) (by simp_all)
      | some a =>
          have ha := List.find?_some hf
          have ha2 : a.1 = b := by simpa using ha
          simp [ha2]
    · have hpf : ((fun e : String × List DataFrame => e.1 == b) ∘
          (fun e => if e.1 == d then (d, files) else e)) =
          (fun e : String × List DataFrame => e.1 == b) := by
        funext e
        by_cases h : e.1 = d <;> simp [h]
      rw [hpf, if_neg hbd]
      cases hf : fs.find? (fun e => e.1 == b) with
      | none => simp
      | some a =>
          have ha := List.find?_some hf
          have ha2 : a.1 = b := by simpa using ha
          have had : a.1 ≠ d := by rw [ha2]; exact hbd
          simp [ha2, had, hbd]
  | false =>
    rw [if_neg Bool.false_ne_true, List.find?_append]
    by_cases hbd : b = d
    · subst hbd
      have hnone : fs.find? (fun e : String × List DataFrame => e.1 == b) = none := by
        refine List.find?_eq_none.mpr ?_
        intro e he hp
        exact absurd hp (by simpa using List.any_eq_false.mp hany e he)
      simp [hnone, List.find?]
    · have hdb : d ≠ b := fun h => hbd h.symm
      have hbeq : (d == b) = false := beq_eq_false_iff_ne.mpr hdb
      have hsingle :
          ([((d, files) : String × List DataFrame)].find?
            (fun e => e.1 == b)) = none := by
        simp [List.find?, hbeq]
      simp [hsingle, hbd]

theorem unlinkLoop_lookup_ne (d b : String) (hbd : b ≠ d) :
    ∀ (files : List DataFrame) (fs : FS) (fuel : Option Nat),
      FS.lookup (stepFS (unlinkLoop d files fs fuel)) b = FS.lookup fs b := by
  intro files
  induction files with
  | nil => intro fs fuel; rfl
  | cons f rest ih =>
      intro fs fuel
      cases fuel with
      | none =>
          show FS.lookup (stepFS (unlinkLoop d rest (FS.set fs d rest) none)) b =
            FS.lookup fs b
          rw [ih (FS.set fs d rest) none, FS.lookup_set, if_neg hbd]
      | some n =>
          cases n with
          | zero => rfl
          | succ m =>
              show FS.lookup
                  (stepFS (unlinkLoop d rest (FS.set fs d rest) (some m))) b =
                FS.lookup fs b
              rw [ih (FS.set fs d rest) (some m), FS.lookup_set, if_neg hbd]

theorem rewritePhase_lookup_ne (d b : String) (hbd : b ≠ d)
    (merged : DataFrame) (res : Except (WErr × FS) (FS × Option Nat)) :
    FS.lookup (resultFS (rewritePhase d merged res)) b =
      FS.lookup (stepFS res) b := by
  cases res with
  | error p =>
      obtain ⟨e, fsx⟩ := p
      rfl
  | ok p =>
      obtain ⟨fs1, fuel1⟩ := p
      have hmk : FS.lookup
          (if (FS.lookup fs1 d).isSome then fs1 else FS.set fs1 d []) b =
          FS.lookup fs1 b := by
        by_cases hex : (FS.lookup fs1 d).isSome
        · simp [hex]
        · simp [hex, FS.lookup_set, hbd]
      cases fuel1 with
      | none =>
          simp [rewritePhase, mutate, resultFS, stepFS, FS.lookup_set, hbd, hmk]
      | some n =>
          cases n with
          | zero => simp [rewritePhase, mutate, resultFS, stepFS]
          | succ m =>
              cases m with
              | zero =>
                  simp [rewritePhase, mutate, resultFS, stepFS, hmk]
              | succ k =>
                  simp [rewritePhase, mutate, resultFS, stepFS,
                    FS.lookup_set, hbd, hmk]

theorem deleteAndRewrite_lookup_ne (d b : String) (hbd : b ≠ d)
    (merged : DataFrame) (fs : FS) (failAt : Option Nat) :
    FS.lookup (resultFS (deleteAndRewrite d merged fs failAt)) b =
      FS.lookup fs b := by
  unfold deleteAndRewrite
  cases hl : FS.lookup fs d with
  | none =>
      exact rewritePhase_lookup_ne d b hbd merged (Except.ok (fs, failAt))
  | some files =>
      exact (rewritePhase_lookup_ne d b hbd merged
        (unlinkLoop d files fs failAt)).trans
        (unlinkLoop_lookup_ne d b hbd files fs failAt)

/-! ## Claim theorems -/

/-- C7: the ledger lookup `is_already_processed` returns true iff an entry
exists for the file path whose stored modified time is exactly equal to
the given value (not greater-or-equal).  The embedding is a pure function
of the ledger, so the lookup has no side effect on the table. -/
theorem is_already_processed_iff_exact_match (fp : String) (t : Int)
    (led : Ledger) :
    is_already_processed fp t led = true ↔ ∃ e ∈ led, e.1 = fp ∧ e.2 = t := by
  simp [is_already_processed]

/-- C8: the ledger upsert is idempotent: re-running `mark_as_processed`
with the same arguments leaves the table in the same end state as one
call, and after the call the entry for the path carries exactly the
given modified time (overwritten when the path already had an entry,
created otherwise). -/
theorem mark_as_processed_idempotent_upsert (fp : String) (t : Int)
    (led : Ledger) :
    mark_as_processed fp t (mark_as_processed fp t led) =
      mark_as_processed fp t led ∧
    ∀ t2 : Int,
      (is_already_processed fp t2 (mark_as_processed fp t led) = true ↔
        t2 = t) := by
  by_cases hany : led.any (fun e => e.1 == fp) = true
  · have h1 : mark_as_processed fp t led =
        led.map (fun e => if e.1 == fp then (fp, t) else e) := by
      unfold mark_as_processed
      rw [if_pos hany]
    obtain ⟨e0, he0, hp0⟩ := List.any_eq_true.mp hany
    have hany2 : (led.map (fun e => if e.1 == fp then (fp, t) else e)).any
        (fun e => e.1 == fp) = true := by
      rw [List.any_map]
      refine List.any_eq_true.mpr ⟨e0, he0, ?_⟩
      simp only [Function.comp]
      rw [if_pos hp0]
      simp
    constructor
    · rw [h1]
      unfold mark_as_processed
      rw [if_pos hany2, List.map_map]
      refine List.map_congr_left ?_
      intro e _
      by_cases h : e.1 = fp
      · simp [Function.comp, h]
      · simp [Function.comp, h]
    · intro t2
      rw [h1]
      unfold is_already_processed
      rw [List.any_map]
      constructor
      · intro hx
        obtain ⟨e, he, hpe⟩ := List.any_eq_true.mp hx
        by_cases h : e.1 = fp
        · simp only [Function.comp] at hpe
          rw [if_pos (by simp [h])] at hpe
          have : t = t2 := by simpa using hpe
          exact this.symm
        · simp only [Function.comp] at hpe
          rw [if_neg (by simp [h])] at hpe
          have h2 : e.1 = fp ∧ e.2 = t2 := by simpa using hpe
          exact absurd h2.1 h
      · intro ht
        subst ht
        refine List.any_eq_true.mpr ⟨e0, he0, ?_⟩
        simp only [Function.comp]
        rw [if_pos hp0]
        simp
  · have hf : led.any (fun e => e.1 == fp) = false := by
      cases hb : led.any (fun e => e.1 == fp) with
      | true => exact absurd hb hany
      | false => rfl
    have h1 : mark_as_processed fp t led = led ++ [(fp, t)] := by
      unfold mark_as_processed
      rw [if_neg hany]
    have hmapid : led.map (fun e => if e.1 == fp then (fp, t) else e) = led := by
      conv_rhs => rw [← List.map_id led]
      refine List.map_congr_left ?_
      intro e he
      rw [if_neg (by simpa using List.any_eq_false.mp hf e he)]
      rfl
    constructor
    · rw [h1]
      unfold mark_as_processed
      rw [if_pos (by simp), List.map_append, hmapid]
      simp
    · intro t2
      rw [h1]
      unfold is_already_processed
      rw [List.any_append]
      have hl : led.any (fun e => e.1 == fp && e.2 == t2) = false := by
        rw [List.any_eq_false]
        intro e he
        have := List.any_eq_false.mp hf e he
        simp_all
      rw [hl]
      simp only [Bool.false_or, List.any_cons, List.any_nil, Bool.or_false,
        Bool.and_eq_true, beq_iff_eq]
      constructor
      · rintro ⟨h1, h2⟩
        exact h2.symm
      · rintro rfl
        exact ⟨trivial, rfl⟩

/-- C6 (amended): `_partition_dir` is a deterministic, byte-for-byte
function of the partition key, but its template is
`plant_name=<plant>/machine_no=<machine>/year=<year>/month=<2-digit
month>` under the root — not the `plant_id=`/`machine_id=` directory
names the claim states. -/
theorem partition_dir_deterministic (df : DataFrame) (p m : String)
    (y mo : Int)
    (hp : cell df "plant_name" 0 = some (some (Val.s p)))
    (hm : cell df "machine_no" 0 = some (some (Val.s m)))
    (hy : cell df "year" 0 = some (some (Val.i y)))
    (hmo : cell df "month" 0 = some (some (Val.i mo))) :
    _partition_dir df = some (codePartitionPath p m y mo) := by
  simp [_partition_dir, hp, hm, hy, hmo, fmtCell, fmt02Cell, codePartitionPath]

/-- C5 (amended): the code performs no partition-key uniformity check and
has no `MixedPartitionKey` error: the target directory is resolved from
the first row alone, and whenever the write proceeds — stated here for a
previously absent partition, where nothing else can raise — the whole
batch, mixed keys included, is written unsplit into that directory.  (A
mixed-key call into an existing partition does raise, but with the
`columnNotFound` error of the dedup-subset bug, nothing key-related.) -/
theorem write_routes_whole_batch_to_resolved_dir (fs : FS) (df : DataFrame)
    (d : String) (hd : _partition_dir df = some d)
    (habs : FS.lookup fs d = none) :
    write_partitioned_parquet fs df none =
      .ok (FS.set (FS.set fs d []) d [df]) ∧
    FS.lookup (FS.set (FS.set fs d []) d [df]) d = some [df] := by
  constructor
  · simp [write_partitioned_parquet, hd, computeMerged, habs, deleteAndRewrite,
      rewritePhase, mutate]
  · rw [FS.lookup_set]
    simp

/-- `df['c'][r]` on a frame with no rows always raises. -/
theorem cell_empty_rows (cols : List String) (c : String) (r : Nat) :
    cell ⟨cols, []⟩ c r = none := by
  unfold cell
  cases cols.indexOf? c <;> simp

/-- `_partition_dir` on a frame with no rows always raises. -/
theorem partition_dir_empty_rows (cols : List String) :
    _partition_dir ⟨cols, []⟩ = none := by
  unfold _partition_dir
  rw [cell_empty_rows]
  rfl

/-- C4: calling the merge-write with an empty record sequence performs no
filesystem action (the partition-path computation raises first, and the
raise carries the filesystem unchanged), and the surrounding
`ingest_file` leaves both the filesystem and the ledger exactly as they
were. -/
theorem write_empty_records_noop (fs : FS) (led : Ledger) (cols : List String)
    (failAt : Option Nat) (fp : String) (t : Int) :
    write_partitioned_parquet fs ⟨cols, []⟩ failAt =
      .error (.rowIndexOutOfBounds, fs) ∧
    (ingest_file ⟨fs, led⟩ fp t ⟨cols, []⟩ failAt).1.fs = fs ∧
    (ingest_file ⟨fs, led⟩ fp t ⟨cols, []⟩ failAt).1.led = led := by
  have hw : write_partitioned_parquet fs ⟨cols, []⟩ failAt =
      .error (.rowIndexOutOfBounds, fs) := by
    unfold write_partitioned_parquet
    rw [partition_dir_empty_rows]
  have hing : (ingest_file ⟨fs, led⟩ fp t ⟨cols, []⟩ failAt).1 = ⟨fs, led⟩ := by
    unfold ingest_file
    dsimp only
    by_cases hp : is_already_processed fp t led = true
    · rw [if_pos hp]
    · rw [if_neg hp, hw]
  exact ⟨hw, by rw [hing], by rw [hing]⟩

/-- C3: the ledger entry for a source file is written only after the
partition write returns successfully: whenever the merge-write raises,
`ingest_file` leaves the ledger untouched and the file is not reported
as ingested (so a later run retries it). -/
theorem ledger_untouched_on_write_failure (st : SysState) (fp : String)
    (t : Int) (records : DataFrame) (failAt : Option Nat) (e : WErr)
    (fs2 : FS)
    (h : write_partitioned_parquet st.fs records failAt = .error (e, fs2)) :
    (ingest_file st fp t records failAt).1.led = st.led ∧
    (ingest_file st fp t records failAt).2 ≠ Outcome.ingested := by
  have hmain : ingest_file st fp t records failAt = (st, .skipped) ∨
      ingest_file st fp t records failAt = (⟨fs2, st.led⟩, .failed e) := by
    unfold ingest_file
    by_cases hp : is_already_processed fp t st.led = true
    · exact Or.inl (by rw [if_pos hp])
    · refine Or.inr ?_
      rw [if_neg hp, h]
  rcases hmain with hm | hm <;> rw [hm]
  · exact ⟨rfl, fun hc => Outcome.noConfusion hc⟩
  · exact ⟨rfl, fun hc => Outcome.noConfusion hc⟩

/-- C9 (amended): a merge-write for the batch's resolved directory never
touches any other directory, on success and on every injected failure
alike; a partition key B is therefore isolated whenever its resolved
location differs from the batch's (which two distinct keys do not always
guarantee — see the counterexample). -/
theorem write_preserves_other_locations (fs : FS) (df : DataFrame)
    (failAt : Option Nat) (b : String)
    (hb : _partition_dir df ≠ some b) :
    FS.lookup (resultFS (write_partitioned_parquet fs df failAt)) b =
      FS.lookup fs b := by
  unfold write_partitioned_parquet
  cases hd : _partition_dir df with
  | none => rfl
  | some d =>
      have hbd : b ≠ d := fun hEq => hb (by rw [hEq]; exact hd)
      show FS.lookup (resultFS
          (match computeMerged fs d df with
           | Except.error e => Except.error (e, fs)
           | Except.ok merged => deleteAndRewrite d merged fs failAt)) b =
        FS.lookup fs b
      cases hm : computeMerged fs d df with
      | error e => rfl
      | ok merged => exact deleteAndRewrite_lookup_ne d b hbd merged fs failAt

/-- C1 (failing run): the partition for `(P1, M1, 2024, 1)` holds one
non-empty parquet file; a one-record merge into it unlinks the old file
first and only then writes, so an I/O failure injected after the unlink
(and the no-op `mkdir`) but before the write leaves the partition
existing and empty — a reader sees neither the old nor the new content
where old data existed. -/
theorem atomic_replace_violated_on_failure :
    FS.lookup fsNarrowP1 dP1 = some [oldNarrowP1] ∧
    oldNarrowP1.rows ≠ [] ∧
    _partition_dir newNarrowP1 = some dP1 ∧
    write_partitioned_parquet fsNarrowP1 newNarrowP1 (some 2) =
      .error (.ioFailure, [(dP1, [])]) ∧
    FS.lookup (resultFS
      (write_partitioned_parquet fsNarrowP1 newNarrowP1 (some 2))) dP1 =
      some [] := by
  refine ⟨rfl, by decide, rfl, rfl, rfl⟩

/-- C2 (failing run): merging a batch into a partition that already holds
rows raises `ColumnNotFoundError` — the `unique` subset names a
`parameter_id` column that the wide frames produced by `load_csv_lazy`
do not have — so no merged result (deduplicated or otherwise) is ever
produced. -/
theorem merge_dedup_crashes_on_existing_partition :
    FS.lookup fsP1 dP1 = some [oldP1] ∧
    ("parameter_id" ∈ dfNewP1.cols → False) ∧
    write_partitioned_parquet fsP1 dfNewP1 none =
      .error (.columnNotFound, fsP1) := by
  refine ⟨rfl, by decide, rfl⟩

/-- C5 (counterexample): a two-row batch whose rows carry two different
partition keys is not rejected: the write succeeds and stores the whole
batch under the first row's partition directory. -/
theorem mixed_partition_key_not_rejected :
    cell mixedDF "plant_name" 0 ≠ cell mixedDF "plant_name" 1 ∧
    write_partitioned_parquet [] mixedDF none = .ok [(dP1, [mixedDF])] := by
  refine ⟨by decide, rfl⟩

/-- C6 (counterexample): for the key `(P1, M1, 2024, 1)` the computed
location is `parquet_root/plant_name=P1/machine_no=M1/year=2024/month=01`,
not the `plant_id=P1/machine_id=M1/...` location of the claimed
template. -/
theorem partition_path_differs_from_spec_template :
    _partition_dir dfNewP1 ≠ some (specPartitionPath "P1" "M1" 2024 1) ∧
    _partition_dir dfNewP1 = some (codePartitionPath "P1" "M1" 2024 1) := by
  refine ⟨by decide, rfl⟩

/-- C9 (counterexample): the distinct partition keys `keyA` and `keyB`
resolve to the same directory string (the machine value of `keyA` embeds
a path separator), so a merge of `keyA`'s batch rewrites the location
that stores `keyB`'s rows. -/
theorem partition_isolation_violated_for_colliding_keys :
    keyA ≠ keyB ∧
    _partition_dir newKeyA =
      some (codePartitionPath keyA.1 keyA.2 2024 1) ∧
    codePartitionPath keyA.1 keyA.2 2024 1 =
      codePartitionPath keyB.1 keyB.2 2024 1 ∧
    FS.lookup fsKeyB (codePartitionPath keyB.1 keyB.2 2024 1) =
      some [oldKeyB] ∧
    FS.lookup (resultFS (write_partitioned_parquet fsKeyB newKeyA none))
        (codePartitionPath keyB.1 keyB.2 2024 1) ≠ some [oldKeyB] := by
  refine ⟨by decide, rfl, rfl, rfl, by decide⟩

/-- The year/month step preserves null-freedom: on rows that carry no
null cell it only appends the two non-null extracted cells. -/
theorem addYM_no_null (i : Nat) :
    ∀ (rows out : List (List (Option Val))),
      (∀ row ∈ rows, row.all (fun c => c.isSome) = true) →
      addYM i rows = some out →
      ∀ row ∈ out, row.all (fun c => c.isSome) = true := by
  intro rows
  induction rows with
  | nil =>
      intro out _h hout
      cases hout
      intro row hrow
      cases hrow
  | cons row rest ih =>
      intro out hall hout
      unfold addYM at hout
      cases hc : row[i]? with
      | none =>
          rw [hc] at hout
          exact absurd hout (by simp)
      | some c =>
          cases c with
          | none =>
              have hmem : (none : Option Val) ∈ row := List.getElem?_mem hc
              have hrow := hall row (List.mem_cons_self row rest)
              rw [List.all_eq_true] at hrow
              exact absurd (hrow none hmem) (by simp)
          | some v =>
              cases v with
              | s sv =>
                  rw [hc] at hout
                  exact absurd hout (by simp)
              | i n =>
                  rw [hc] at hout
                  exact absurd hout (by simp)
              | dt y m t =>
                  rw [hc] at hout
                  cases hrest : addYM i rest with
                  | none =>
                      rw [hrest] at hout
                      exact absurd hout (by simp)
                  | some rs =>
                      rw [hrest] at hout
                      have hout2 : (row ++ [some (Val.i y), some (Val.i m)]) ::
                          rs = out := by simpa using hout
                      subst hout2
                      intro r hr
                      rcases List.mem_cons.mp hr with hr1 | hr2
                      · subst hr1
                        rw [List.all_append]
                        have h1 := hall row (List.mem_cons_self row rest)
                        rw [h1]
                        rfl
                      · exact ih rs
                          (fun q hq => hall q (List.mem_cons_of_mem _ hq))
                          hrest r hr2

/-- C10: the frame `load_csv_lazy` hands to the merge step contains no
null cell in any row: `read_pi_file` drops every row with a null before
the derived and literal columns (all non-null) are appended. -/
theorem load_csv_lazy_rows_have_no_nulls (raw : DataFrame)
    (plant machine : String) (df : DataFrame)
    (h : load_csv_lazy raw plant machine = some df) :
    df.rows.all (fun row => row.all (fun c => c.isSome)) = true := by
  unfold load_csv_lazy read_pi_file addYearMonth at h
  cases hidx : (filterNotNull raw).cols.indexOf? "Datetime" with
  | none =>
      simp only [hidx] at h
      exact absurd h (by simp)
  | some i =>
      simp only [hidx] at h
      cases hym : addYM i (filterNotNull raw).rows with
      | none =>
          simp only [hym] at h
          exact absurd h (by simp)
      | some rows2 =>
          simp only [hym] at h
          have hall : ∀ row ∈ rows2, row.all (fun c => c.isSome) = true := by
            refine addYM_no_null i (filterNotNull raw).rows rows2 ?_ hym
            intro row hrow
            exact (List.mem_filter.mp hrow).2
          have hdf : df = ⟨(filterNotNull raw).cols ++ ["year", "month"] ++
              ["plant_name", "machine_no"],
              rows2.map (fun row =>
                row ++ [some (Val.s plant), some (Val.s machine)])⟩ := by
            simpa using h.symm
          subst hdf
          rw [List.all_eq_true]
          intro r hr
          obtain ⟨q, hq, hqr⟩ := List.mem_map.mp hr
          subst hqr
          rw [List.all_append, hall q hq]
          rfl

/-! ## Witnesses -/

/-- Witness for `partition_dir_deterministic` at the concrete batch
`dfNewP1`. -/
theorem partition_dir_deterministic_witness :
    cell dfNewP1 "plant_name" 0 = some (some (Val.s "P1")) ∧
    _partition_dir dfNewP1 = some (codePartitionPath "P1" "M1" 2024 1) :=
  ⟨rfl, partition_dir_deterministic dfNewP1 "P1" "M1" 2024 1 rfl rfl rfl rfl⟩

/-- Witness for `write_routes_whole_batch_to_resolved_dir` at the mixed
batch and an empty filesystem. -/
theorem write_routes_whole_batch_to_resolved_dir_witness :
    write_partitioned_parquet [] mixedDF none =
      .ok (FS.set (FS.set [] dP1 []) dP1 [mixedDF]) ∧
    FS.lookup (FS.set (FS.set [] dP1 []) dP1 [mixedDF]) dP1 =
      some [mixedDF] :=
  write_routes_whole_batch_to_resolved_dir [] mixedDF dP1 rfl rfl

/-- Witness for `ledger_untouched_on_write_failure`: a failing write (an
empty batch) leaves an empty ledger empty. -/
theorem ledger_untouched_on_write_failure_witness :
    (ingest_file ⟨[], []⟩ "f1" 1 ⟨["plant_name"], []⟩ none).1.led =
      ([] : Ledger) ∧
    (ingest_file ⟨[], []⟩ "f1" 1 ⟨["plant_name"], []⟩ none).2 ≠
      Outcome.ingested :=
  ledger_untouched_on_write_failure ⟨[], []⟩ "f1" 1 ⟨["plant_name"], []⟩ none
    .rowIndexOutOfBounds [] rfl

/-- Witness for `write_preserves_other_locations` at the colliding-key
run and an unrelated directory. -/
theorem write_preserves_other_locations_witness :
    FS.lookup (resultFS (write_partitioned_parquet fsKeyB newKeyA none))
      dOther = FS.lookup fsKeyB dOther :=
  write_preserves_other_locations fsKeyB newKeyA none dOther (by decide)

/-- Witness for `load_csv_lazy_rows_have_no_nulls` at `rawC10`. -/
theorem load_csv_lazy_rows_have_no_nulls_witness :
    load_csv_lazy rawC10 "P1" "M1" = some dfC10out ∧
    dfC10out.rows.all (fun row => row.all (fun c => c.isSome)) = true :=
  ⟨rfl, load_csv_lazy_rows_have_no_nulls rawC10 "P1" "M1" dfC10out rfl⟩

end CsvIngest
